import Mathlib

/-!
# Verification of the ftsb load/benchmark engine

Shallow embedding of the measurement core of the ftsb repository
(`load` package, `cmd/ftsb_redisearch/cmd_processor.go`,
`cmd/ftsb_load_redisearch/main.go`) together with theorems settling the
specification claims.  Machine integers are modelled as `Nat`/`Int` with
explicit reduction modulo `2^64` where Go's `uint64` conversions matter;
Go `float64` values that can be `NaN`/`Inf` are modelled by the
`GoFloat` type.
-/

namespace Ftsb

/-! ## Histogram model

`hdrhistogram.New(1, 1000000, 3)` (external library) is modelled by the
list of its successfully recorded values: `RecordValue` appends when the
value lies inside the trackable range `[1, 1000000]` and otherwise
returns an error that every caller in the source discards, `TotalCount`
is the number of recorded values, `Reset` empties the histogram. -/

abbrev Histogram := List Int

/-- Lowest trackable histogram value, from `hdrhistogram.New(1, 1000000, 3)`. -/
def histLowest : Int := 1

/-- Highest trackable histogram value, from `hdrhistogram.New(1, 1000000, 3)`. -/
def histHighest : Int := 1000000

/-- `hdrhistogram` `RecordValue`: record the value when trackable, drop it
(with an ignored error) otherwise. -/
def recordValue (v : Int) (h : Histogram) : Histogram :=
  if histLowest ≤ v ∧ v ≤ histHighest then v :: h else h

/-- `hdrhistogram` `TotalCount`. -/
def totalCount (h : Histogram) : Nat := h.length

/-- Reduction of a `Nat` to Go `uint64` range (`% 2^64`). -/
def u64 (n : Nat) : Nat := n % 2 ^ 64

/-- Go conversion `int64(x)` of a `uint64` value `x` (two's-complement wrap). -/
def toInt64 (n : Nat) : Int :=
  if n % 2 ^ 64 < 2 ^ 63 then ((n % 2 ^ 64 : Nat) : Int)
  else ((n % 2 ^ 64 : Nat) : Int) - 2 ^ 64

/-! ## Go float64 on the result path -/

/-- A Go `float64` as it matters on the statistics path: `NaN`, the two
infinities, or an exact value. -/
inductive GoFloat where
  | nan : GoFloat
  | inf : GoFloat
  | ninf : GoFloat
  | val (q : ℚ) : GoFloat
deriving DecidableEq, Repr

/-- Go `float64` division `a / b` for exactly-represented operands:
`0/0 = NaN`, `±x/0 = ±Inf`, otherwise the exact quotient. -/
def goDiv (a b : ℚ) : GoFloat :=
  if b = 0 then (if a = 0 then .nan else if 0 < a then .inf else .ninf)
  else .val (a / b)

/-! ## Data points and the runner state -/

/-- Modelled from the spec: a `DataPoint` is
`{timestampSeconds, map[quantileLabel → value] ∪ {"rate": observedRate}}`
(the `DataPoint` struct itself is not among the provided source files;
`part_000` constructs it as `DataPoint{now.Unix(), mp}`). -/
structure DataPoint where
  timestamp : Int
  values : List (String × GoFloat)
deriving DecidableEq, Repr

/-- A command observation as consumed by the worker loop
(`cmdStat.Label()/Latency()/Tx()/Rx()` in `part_000`).  Modelled from the
spec: the `benchmark_runner` `CmdStat` type (category label, identifier,
latency in microseconds, tx/rx byte counts, is-update/is-delete flags) is
not among the provided source files. -/
structure CmdStat where
  label : String
  cmdQueryId : String
  latency : Nat
  isUpdate : Bool
  isDelete : Bool
  tx : Nat
  rx : Nat
deriving DecidableEq, Repr

/-- The measurement state of `BenchmarkRunner` (`part_000`, lines 329-381):
per-category cumulative and instantaneous histograms, per-category time
series, and the two global byte counters. -/
structure RunnerState where
  setupWriteHistogram : Histogram
  inst_setupWriteHistogram : Histogram
  setupWriteTs : List DataPoint
  writeHistogram : Histogram
  inst_writeHistogram : Histogram
  writeTs : List DataPoint
  updateHistogram : Histogram
  inst_updateHistogram : Histogram
  updateTs : List DataPoint
  readHistogram : Histogram
  inst_readHistogram : Histogram
  readTs : List DataPoint
  readCursorHistogram : Histogram
  inst_readCursorHistogram : Histogram
  readCursorTs : List DataPoint
  deleteHistogram : Histogram
  inst_deleteHistogram : Histogram
  deleteTs : List DataPoint
  totalHistogram : Histogram
  inst_totalHistogram : Histogram
  totalTs : List DataPoint
  txTotalBytes : Nat
  rxTotalBytes : Nat
deriving DecidableEq, Repr

/-- The runner state produced by the `loader` initializer (`part_000`,
lines 383-405): all histograms and time series empty, counters zero. -/
def initialRunner : RunnerState :=
  { setupWriteHistogram := [], inst_setupWriteHistogram := [], setupWriteTs := []
    writeHistogram := [], inst_writeHistogram := [], writeTs := []
    updateHistogram := [], inst_updateHistogram := [], updateTs := []
    readHistogram := [], inst_readHistogram := [], readTs := []
    readCursorHistogram := [], inst_readCursorHistogram := [], readCursorTs := []
    deleteHistogram := [], inst_deleteHistogram := [], deleteTs := []
    totalHistogram := [], inst_totalHistogram := [], totalTs := []
    txTotalBytes := 0, rxTotalBytes := 0 }

/-! ## GetMeasuredRatiosMap and wrapNaN (`part_000`, lines 224-249 and 826-832) -/

/-- `GetMeasuredRatiosMap`: the four measured ratios placed into the result
document, computed by Go `float64` division by `totalOps` exactly as in the
source — note that the source applies no NaN guard here. -/
def GetMeasuredRatiosMap (b : RunnerState) : List (String × GoFloat) :=
  let totalOps : ℚ := (totalCount b.totalHistogram : ℚ)
  let writeRatio := goDiv ((totalCount b.writeHistogram + totalCount b.setupWriteHistogram : Nat) : ℚ) totalOps
  let readRatio := goDiv ((totalCount b.readHistogram + totalCount b.readCursorHistogram : Nat) : ℚ) totalOps
  let updateRatio := goDiv ((totalCount b.updateHistogram : Nat) : ℚ) totalOps
  let deleteRatio := goDiv ((totalCount b.deleteHistogram : Nat) : ℚ) totalOps
  [("MeasuredWriteRatio", writeRatio),
   ("MeasuredReadRatio", readRatio),
   ("MeasuredUpdateRatio", updateRatio),
   ("MeasuredDeleteRatio", deleteRatio)]

/-- `wrapNaN`: protect against NaN on json — maps `NaN` to `-1.0` and leaves
every other value unchanged. -/
def wrapNaN (input : GoFloat) : GoFloat :=
  if input = .nan then .val (-1) else input

/-! ## Worker demultiplexing step (`part_000`, lines 596-641) -/

/-- One iteration of the worker loop body over a single `cmdStat`
(`part_000`, lines 600-638): record the latency into the global-total
cumulative and instantaneous histograms, atomically add the tx/rx byte
counts, then route the latency by category label (Go `switch labelStr`)
into the matching cumulative/instantaneous histogram pair. -/
def work1 (l : RunnerState) (cmdStat : CmdStat) : RunnerState :=
  let lat := toInt64 cmdStat.latency
  let l1 := { l with
    totalHistogram := recordValue lat l.totalHistogram
    inst_totalHistogram := recordValue lat l.inst_totalHistogram
    txTotalBytes := u64 (l.txTotalBytes + cmdStat.tx)
    rxTotalBytes := u64 (l.rxTotalBytes + cmdStat.rx) }
  let labelStr := cmdStat.label
  if labelStr = "SETUP_WRITE" then
    { l1 with setupWriteHistogram := recordValue lat l1.setupWriteHistogram
              inst_setupWriteHistogram := recordValue lat l1.inst_setupWriteHistogram }
  else if labelStr = "WRITE" then
    { l1 with writeHistogram := recordValue lat l1.writeHistogram
              inst_writeHistogram := recordValue lat l1.inst_writeHistogram }
  else if labelStr = "UPDATE" then
    { l1 with updateHistogram := recordValue lat l1.updateHistogram
              inst_updateHistogram := recordValue lat l1.inst_updateHistogram }
  else if labelStr = "READ" then
    { l1 with readHistogram := recordValue lat l1.readHistogram
              inst_readHistogram := recordValue lat l1.inst_readHistogram }
  else if labelStr = "CURSOR_READ" then
    { l1 with readCursorHistogram := recordValue lat l1.readCursorHistogram
              inst_readCursorHistogram := recordValue lat l1.inst_readCursorHistogram }
  else if labelStr = "DELETE" then
    { l1 with deleteHistogram := recordValue lat l1.deleteHistogram
              inst_deleteHistogram := recordValue lat l1.inst_deleteHistogram }
  else l1

/-- The six per-category (cumulative, instantaneous) histogram pairs of a
runner state, in the order of the `switch` arms of the worker loop. -/
def catPairs (l : RunnerState) : List (Histogram × Histogram) :=
  [(l.setupWriteHistogram, l.inst_setupWriteHistogram),
   (l.writeHistogram, l.inst_writeHistogram),
   (l.updateHistogram, l.inst_updateHistogram),
   (l.readHistogram, l.inst_readHistogram),
   (l.readCursorHistogram, l.inst_readCursorHistogram),
   (l.deleteHistogram, l.inst_deleteHistogram)]

/-- Record one value into both histograms of a category pair. -/
def recordPair (v : Int) (p : Histogram × Histogram) : Histogram × Histogram :=
  (recordValue v p.1, recordValue v p.2)

/-- The spec's label routing: position of a recognized category label among
the six categories, `none` for an unrecognized label. -/
def routeIdx (s : String) : Option Nat :=
  if s = "SETUP_WRITE" then some 0
  else if s = "WRITE" then some 1
  else if s = "UPDATE" then some 2
  else if s = "READ" then some 3
  else if s = "CURSOR_READ" then some 4
  else if s = "DELETE" then some 5
  else none

/-! ## Quantile maps, data-point appending and the reporter tick
(`part_000`, lines 734-823 and 834-858)

`ValueAtQuantile` is computed by the external `hdrhistogram` library; it
enters the embedding as the parameter `vaq`. -/

/-- `generateQuantileMap`: total count plus the q50/q95/q99 map (quantile
values divided by `10e2`, zero when the histogram is empty). -/
def generateQuantileMap (vaq : Histogram → ℚ → Int) (hist : Histogram) :
    Nat × List (String × GoFloat) :=
  let ops := totalCount hist
  let q50 : ℚ := if 0 < ops then (vaq hist 50 : ℚ) / 1000 else 0
  let q95 : ℚ := if 0 < ops then (vaq hist 95 : ℚ) / 1000 else 0
  let q99 : ℚ := if 0 < ops then (vaq hist 99 : ℚ) / 1000 else 0
  (ops, [("q50", .val q50), ("q95", .val q95), ("q99", .val q99)])

/-- `addRateMetricsDatapoints`: append one `DataPoint` carrying the
histogram's quantile map extended with the observed rate
`ops / timeframe.Seconds()` (Go float division). -/
def addRateMetricsDatapoints (vaq : Histogram → ℚ → Int)
    (datapoints : List DataPoint) (now : Int) (timeframe : ℚ)
    (hist : Histogram) : List DataPoint :=
  let (ops, mp) := generateQuantileMap vaq hist
  let rate := goDiv (ops : ℚ) timeframe
  let datapoint : DataPoint := ⟨now, mp ++ [("rate", rate)]⟩
  datapoints ++ [datapoint]

/-- The state effect of one reporter tick (`report`, `part_000`, lines
749-821): append one `DataPoint` per category (computed from that
category's instantaneous histogram), then reset the six per-category
instantaneous histograms.  The cumulative histograms, the two
global-total histograms and `totalTs` are only read, never written, by
the tick body. -/
def reportTick (vaq : Histogram → ℚ → Int) (l : RunnerState)
    (now : Int) (took : ℚ) : RunnerState :=
  { l with
    setupWriteTs := addRateMetricsDatapoints vaq l.setupWriteTs now took l.inst_setupWriteHistogram
    writeTs := addRateMetricsDatapoints vaq l.writeTs now took l.inst_writeHistogram
    readTs := addRateMetricsDatapoints vaq l.readTs now took l.inst_readHistogram
    readCursorTs := addRateMetricsDatapoints vaq l.readCursorTs now took l.inst_readCursorHistogram
    updateTs := addRateMetricsDatapoints vaq l.updateTs now took l.inst_updateHistogram
    deleteTs := addRateMetricsDatapoints vaq l.deleteTs now took l.inst_deleteHistogram
    inst_setupWriteHistogram := []
    inst_writeHistogram := []
    inst_readHistogram := []
    inst_readCursorHistogram := []
    inst_updateHistogram := []
    inst_deleteHistogram := [] }

/-! ## The pipelined command processor
(`cmd/ftsb_redisearch/cmd_processor.go`)

The radix network client and `encoding/csv` are external collaborators:
the network round-trip result enters as `flushErr`/`flushTime`
parameters, CSV record reading as the `csvRead` parameter. -/

/-- The payload handed to `radix.FlatCmd` (command name plus the document
fields). -/
structure Cmd where
  cmd : String
  fields : List String
deriving DecidableEq, Repr

/-- A Go `interface{}` response value as classified by `getRxLen`. -/
inductive RxVal where
  | strs (l : List String) : RxVal
  | str (s : String) : RxVal
deriving DecidableEq, Repr

/-- `getRxLen`: summed byte length of a `[]string` or `string` response,
`0` for anything else (including the nil interface). -/
def getRxLen : Option RxVal → Nat
  | some (.strs l) => (l.map String.length).sum
  | some (.str s) => s.length
  | none => 0

/-- `uint64(endT.Sub(t).Microseconds())` with times carried in
microseconds: `Int` subtraction followed by the `uint64` wrap. -/
def tookOf (endT t : Nat) : Nat :=
  (((endT : Int) - (t : Int)) % (2 ^ 64 : Int)).toNat

/-- Go `uint64` subtraction `a - b` (wrapping). -/
def u64sub (a b : Nat) : Nat :=
  (((a : Int) - (b : Int)) % (2 ^ 64 : Int)).toNat

/-- The flush loop of `sendIfRequired` (lines 98-104): one `CmdStat` per
pending enqueue time, each with latency `tookOf endT t`, the shared
`cmdType`/`cmdQueryId`/`txBytesCount`, and the running `rxBytesCount`
accumulator (incremented by `getRxLen rcv` per iteration). -/
def flushStats (cmdType cmdQueryId : String) (txBytesCount rcvLen endT : Nat) :
    Nat → List Nat → List CmdStat
  | _, [] => []
  | rx, t :: ts =>
      let rx1 := rx + rcvLen
      ⟨cmdType, cmdQueryId, tookOf endT t, false, false, txBytesCount, rx1⟩ ::
        flushStats cmdType cmdQueryId txBytesCount rcvLen endT rx1 ts

/-- Configuration of the processor: the `pipeline` flush threshold and the
`continue-on-error` / `debug` options. -/
structure ProcConfig where
  pipeline : Nat
  continueOnErr : Bool
  debug : Nat
deriving DecidableEq, Repr

/-- Result of `sendIfRequired`: either the process dies by `log.Fatal`, or
it continues with the emitted log lines (each a pending-command list with
the error text), the emitted `CmdStat`s, and the new command/time
buffers. -/
inductive FlushOut where
  | fatalled (e : String) : FlushOut
  | ok (logs : List (List Cmd × String)) (stats : List CmdStat)
      (cmds : List Cmd) (times : List Nat) : FlushOut
deriving DecidableEq, Repr

/-- `sendIfRequired` (lines 85-111): when at least `pipeline` commands are
pending, issue one pipelined round-trip (its outcome is `flushErr`, its
completion time `endT`); on error either log-and-continue
(`continueOnErr`, logged when `debug > 0`) or die fatally; then emit one
`CmdStat` per pending command and empty both buffers.  Below the
threshold, nothing happens. -/
def sendIfRequired (cfg : ProcConfig) (cmdType cmdQueryId : String)
    (flushErr : Option String) (endT : Nat) (rxBytesCount : Nat)
    (rcv : Option RxVal) (txBytesCount : Nat)
    (cmds : List Cmd) (times : List Nat) : FlushOut :=
  if cfg.pipeline ≤ cmds.length then
    match flushErr with
    | some e =>
        if cfg.continueOnErr then
          .ok (if 0 < cfg.debug then [(cmds, e)] else [])
            (flushStats cmdType cmdQueryId txBytesCount (getRxLen rcv) endT rxBytesCount times)
            [] []
        else .fatalled e
    | none =>
        .ok [] (flushStats cmdType cmdQueryId txBytesCount (getRxLen rcv) endT rxBytesCount times)
          [] []
  else .ok [] [] cmds times

/-- `sendFlatCmd` (lines 73-83): append the flat command and its enqueue
time (`start := time.Now()`), then delegate to `sendIfRequired` with a
zero `rxBytesCount` and a nil `rcv`. -/
def sendFlatCmd (cfg : ProcConfig) (flushErr : Option String) (endT : Nat)
    (cmdType cmdQueryId cmd : String) (docfields : List String)
    (txBytesCount _insertCount : Nat) (start : Nat)
    (cmds : List Cmd) (times : List Nat) : FlushOut :=
  let radixFlatCmd : Cmd := ⟨cmd, docfields⟩
  sendIfRequired cfg cmdType cmdQueryId flushErr endT 0 none txBytesCount
    (cmds ++ [radixFlatCmd]) (times ++ [start])

/-- A row parsed by `preProcessCmd`. -/
structure ParsedCmd where
  cmdType : String
  cmdQueryId : String
  cmd : String
  args : List String
  bytelen : Nat
deriving DecidableEq, Repr

/-- `preProcessCmd` (lines 146-168): read the row as one CSV record
(external `encoding/csv`, entering as `csvRead`); require at least three
fields (`cmdType`, `cmdQueryId`, `cmd`), the rest are arguments; the byte
length is `uint64(len(row)) - uint64(len(cmdType))`. -/
def preProcessCmd (csvRead : String → Option (List String)) (row : String) :
    Option ParsedCmd :=
  match csvRead row with
  | none => none
  | some argsStr =>
      if 3 ≤ argsStr.length then
        some { cmdType := argsStr.headD ""
               cmdQueryId := (argsStr[1]?).getD ""
               cmd := (argsStr[2]?).getD ""
               args := argsStr.drop 3
               bytelen := u64sub row.length (argsStr.headD "").length }
      else none

/-- External timing/network inputs of a batch run: the enqueue time of the
k-th accepted command, and completion time and outcome of the j-th
pipelined flush. -/
structure NetOracle where
  enqTime : Nat → Nat
  flushTime : Nat → Nat
  flushErr : Nat → Option String

/-- State threaded through `connectionProcessor`: the pending
command/enqueue-time buffers, accumulated stats and log lines, the trace
of pipelined round-trips actually dispatched, counters indexing the
oracle, and whether `log.Fatal` fired. -/
structure ConnState where
  cmds : List Cmd
  times : List Nat
  stats : List CmdStat
  logs : List (List Cmd × String)
  trace : List (List Cmd)
  nCmds : Nat
  nFlush : Nat
  dead : Bool

/-- The state in which `connectionProcessor` starts (lines 41-47). -/
def ConnState.init : ConnState := ⟨[], [], [], [], [], 0, 0, false⟩

/-- One iteration of the `connectionProcessor` row loop (lines 48-53):
rows failing `preProcessCmd` are skipped, otherwise the command is
enqueued via `sendFlatCmd`, possibly triggering a pipelined flush. -/
def connStep (cfg : ProcConfig) (O : NetOracle)
    (csvRead : String → Option (List String)) (s : ConnState) (row : String) :
    ConnState :=
  if s.dead then s
  else match preProcessCmd csvRead row with
  | none => s
  | some pc =>
      let start := O.enqTime s.nCmds
      let willFlush := cfg.pipeline ≤ s.cmds.length + 1
      match sendFlatCmd cfg (O.flushErr s.nFlush) (O.flushTime s.nFlush)
          pc.cmdType pc.cmdQueryId pc.cmd pc.args pc.bytelen 1 start
          s.cmds s.times with
      | .fatalled _ => { s with dead := true }
      | .ok logs stats cmds times =>
          { cmds := cmds, times := times
            stats := s.stats ++ stats
            logs := s.logs ++ logs
            trace := if willFlush then s.trace ++ [s.cmds ++ [⟨pc.cmd, pc.args⟩]] else s.trace
            nCmds := s.nCmds + 1
            nFlush := if willFlush then s.nFlush + 1 else s.nFlush
            dead := false }

/-- `connectionProcessor` (lines 40-56) over the batch rows. -/
def connectionProcessor (cfg : ProcConfig) (O : NetOracle)
    (csvRead : String → Option (List String)) (rows : List String) : ConnState :=
  rows.foldl (connStep cfg O csvRead) .init

/-- `processor.ProcessBatch` (lines 114-141): with `doLoad` the rows are
fed through `connectionProcessor` and the emitted `CmdStat`s merged into
the out-stat; without `doLoad` nothing is dispatched and the out-stat
stays empty; in both cases the batch's row sequence is truncated to empty
(`events.rows = events.rows[:0]`) before the batch returns to the pool.
Result: (merged CmdStats, trace of network round-trips, recycled rows). -/
def ProcessBatch (cfg : ProcConfig) (O : NetOracle)
    (csvRead : String → Option (List String)) (rows : List String)
    (doLoad : Bool) : List CmdStat × List (List Cmd) × List String :=
  if doLoad then
    let s := connectionProcessor cfg O csvRead rows
    (s.stats, s.trace, [])
  else ([], [], [])

/-! ## Partition indexer (`cmd/ftsb_load_redisearch/main.go`, lines 48-50) -/

/-- `RedisIndexer.GetIndex`: `int(uint(itemsRead) % i.partitions)` —
`itemsRead` is a `uint64`, reduced here explicitly. -/
def GetIndex (itemsRead partitions : Nat) : Nat :=
  itemsRead % 2 ^ 64 % partitions

/-! ## Time-series sorting (`part_000`, lines 306-325) -/

/-- Modelled from the spec: the `ByTimestamp` sort order used by
`sort.Sort` (the `ByTimestamp` type's `Less` is not among the provided
source files; the spec requires the series "sorted by timestamp"). -/
def ByTimestamp (a b : DataPoint) : Prop := a.timestamp ≤ b.timestamp

instance : DecidableRel ByTimestamp :=
  fun a b => Int.decLe a.timestamp b.timestamp

instance : IsTotal DataPoint ByTimestamp :=
  ⟨fun a b => Int.le_total a.timestamp b.timestamp⟩

instance : IsTrans DataPoint ByTimestamp :=
  ⟨fun _ _ _ h1 h2 => le_trans h1 h2⟩

/-- `GetTimeSeriesMap`: sort each of the six per-category time series by
timestamp (`sort.Sort(ByTimestamp(...))`, modelled by a comparison sort
over the `ByTimestamp` order) and surface them in the result document. -/
def GetTimeSeriesMap (b : RunnerState) : List (String × List DataPoint) :=
  [("setupWriteTs", List.insertionSort ByTimestamp b.setupWriteTs),
   ("writeTs", List.insertionSort ByTimestamp b.writeTs),
   ("readTs", List.insertionSort ByTimestamp b.readTs),
   ("readCursorTs", List.insertionSort ByTimestamp b.readCursorTs),
   ("updateTs", List.insertionSort ByTimestamp b.updateTs),
   ("deleteTs", List.insertionSort ByTimestamp b.deleteTs)]

/-! ## DuplexChannel backpressure (`part_000`, lines 548-572)

The `duplexChannel` implementation (`newDuplexChannel`, `sendToWorker`,
`sendToScanner`, `close`) is not among the provided source files; its
behaviour is modelled from the spec as a transition system on the count
of enqueued-but-unacknowledged batches. -/

/-- Modelled from the spec: a `DuplexChannel` with its configured capacity
and the current number of enqueued-but-unacknowledged batches. -/
structure DChan where
  capacity : Nat
  inflight : Nat
deriving DecidableEq, Repr

/-- Modelled from the spec: `newDuplexChannel(queueLen)` starts with no
batch in flight. -/
def newDuplexChannel (queueLen : Nat) : DChan := ⟨queueLen, 0⟩

/-- Modelled from the spec: one event on a `DuplexChannel` — the Scanner
completes a `send` (possible only below capacity, otherwise it blocks),
or a worker acknowledges a batch, freeing one slot. -/
inductive DStep : DChan → DChan → Prop where
  | send (c : DChan) : c.inflight < c.capacity →
      DStep c ⟨c.capacity, c.inflight + 1⟩
  | ack (c : DChan) : 0 < c.inflight →
      DStep c ⟨c.capacity, c.inflight - 1⟩

/-- States reachable from `c0` by interleaved send/ack events. -/
inductive DReach (c0 : DChan) : DChan → Prop where
  | refl : DReach c0 c0
  | tail {b c : DChan} : DReach c0 b → DStep b c → DReach c0 c

/-- `WorkerPerQueue` sentinel (`part_000`, line 157). -/
def WorkerPerQueue : Nat := 0

/-- `int(math.Ceil(float64(workers) / float64(queues)))`. -/
def workersPerQueueOf (workers queues : Nat) : Nat :=
  if queues = 0 then 0 else (workers + queues - 1) / queues

/-- `createChannels` (lines 551-572): `workQueues = WorkerPerQueue` means
one queue per worker; more queues than workers panics (`none`); each of
the `workQueuesToCreate` channels is a `newDuplexChannel` of capacity
`ceil(workers / workQueuesToCreate)`. -/
def createChannels (workers workQueues : Nat) : Option (List DChan) :=
  if workQueues = WorkerPerQueue then
    some (List.replicate workers (newDuplexChannel (workersPerQueueOf workers workers)))
  else if workers < workQueues then none
  else some (List.replicate workQueues (newDuplexChannel (workersPerQueueOf workers workQueues)))

/-! ## Shared helper lemmas -/

/-- The latencies emitted by the flush loop are exactly
`tookOf endT` of the pending enqueue times, whatever the running
rx accumulator is. -/
theorem flushStats_map_latency (a b : String) (tx rl endT : Nat) :
    ∀ (rx : Nat) (times : List Nat),
      (flushStats a b tx rl endT rx times).map CmdStat.latency =
        times.map (tookOf endT) := by
  intro rx times
  induction times generalizing rx with
  | nil => rfl
  | cons t ts ih => simp [flushStats, ih]

/-- Backpressure invariant is preserved along every reachable state. -/
theorem dreach_bound (c0 : DChan) (h : c0.inflight ≤ c0.capacity) :
    ∀ c, DReach c0 c → c.inflight ≤ c.capacity := by
  intro c hr
  induction hr with
  | refl => exact h
  | tail _ hs ih =>
      cases hs with
      | send hb => exact hb
      | ack hb => simp at ih ⊢; omega

/-! ## Claims -/

/-- C1: the claim states that every measured ratio placed into the result
document by `GetMeasuredRatiosMap` has the NaN-guard `wrapNaN` applied on
the result path, mapping `NaN` to `-1` when the total operation count is
zero.  The code does not do this: at the zero-operation state all four
ratios come out as `NaN` (and `wrapNaN`, which would map them to `-1`, is
never invoked on them). -/
theorem c1_ratios_unguarded_nan_at_zero_ops :
    (GetMeasuredRatiosMap initialRunner).map Prod.snd =
      [GoFloat.nan, GoFloat.nan, GoFloat.nan, GoFloat.nan] ∧
    wrapNaN GoFloat.nan = GoFloat.val (-1) := by
  constructor
  · rfl
  · rfl

/-- C2 (counterexample): the claim says every instantaneous histogram —
including the global-total one — has total count zero after a reporting
tick.  False: a tick from a state whose global-total instantaneous
histogram holds one value leaves that count at 1. -/
theorem c2_inst_total_not_reset_by_tick :
    ¬ totalCount ((reportTick (fun _ _ => 0)
        { initialRunner with inst_totalHistogram := [5] } 0 1).inst_totalHistogram) = 0 := by
  decide

/-- C2 (amended): after every reporting tick, each of the six per-category
instantaneous histograms has total count zero, while no cumulative
histogram (nor the global-total pair) is modified by the tick — in
particular every cumulative histogram's total count is unchanged by the
tick, hence monotonically non-decreasing over the run; the global-total
instantaneous histogram, however, is not reset. -/
theorem c2_tick_resets_categories_preserves_cumulative
    (vaq : Histogram → ℚ → Int) (l : RunnerState) (now : Int) (took : ℚ) :
    totalCount (reportTick vaq l now took).inst_setupWriteHistogram = 0 ∧
    totalCount (reportTick vaq l now took).inst_writeHistogram = 0 ∧
    totalCount (reportTick vaq l now took).inst_updateHistogram = 0 ∧
    totalCount (reportTick vaq l now took).inst_readHistogram = 0 ∧
    totalCount (reportTick vaq l now took).inst_readCursorHistogram = 0 ∧
    totalCount (reportTick vaq l now took).inst_deleteHistogram = 0 ∧
    (reportTick vaq l now took).setupWriteHistogram = l.setupWriteHistogram ∧
    (reportTick vaq l now took).writeHistogram = l.writeHistogram ∧
    (reportTick vaq l now took).updateHistogram = l.updateHistogram ∧
    (reportTick vaq l now took).readHistogram = l.readHistogram ∧
    (reportTick vaq l now took).readCursorHistogram = l.readCursorHistogram ∧
    (reportTick vaq l now took).deleteHistogram = l.deleteHistogram ∧
    (reportTick vaq l now took).totalHistogram = l.totalHistogram ∧
    (reportTick vaq l now took).inst_totalHistogram = l.inst_totalHistogram := by
  refine ⟨rfl, rfl, rfl, rfl, rfl, rfl, rfl, rfl, rfl, rfl, rfl, rfl, rfl, rfl⟩

/-- C5: the record→partition assignment of `RedisIndexer.GetIndex` is the
pure function `itemsRead mod numPartitions` (for any `uint64` value of
`itemsRead`), and its result always lies in `[0, numPartitions)`; being a
function of exactly `(itemsRead, partitions)`, two runs over the same
input sequence with the same partition count assign identically. -/
theorem c5_getIndex_mod_and_range (itemsRead partitions : Nat) :
    GetIndex itemsRead partitions = itemsRead % 2 ^ 64 % partitions ∧
    (itemsRead < 2 ^ 64 → GetIndex itemsRead partitions = itemsRead % partitions) ∧
    (0 < partitions → GetIndex itemsRead partitions < partitions) := by
  refine ⟨rfl, fun h => ?_, fun h => Nat.mod_lt _ h⟩
  unfold GetIndex
  rw [Nat.mod_eq_of_lt h]

/-- C5 witness at `itemsRead = 7`, `partitions = 3`. -/
theorem c5_getIndex_witness :
    GetIndex 7 3 = 7 % 3 ∧ GetIndex 7 3 < 3 :=
  ⟨(c5_getIndex_mod_and_range 7 3).2.1 (by norm_num),
   (c5_getIndex_mod_and_range 7 3).2.2 (by norm_num)⟩

/-- C7: `ProcessBatch` with `doLoad = false` performs no network dispatch
(empty round-trip trace), returns a `Stat` with zero `CmdStat`s, and
recycles the batch with its row sequence truncated to empty — for every
batch and every behaviour of the external parser/network/clock. -/
theorem c7_dry_run_no_dispatch_no_stats (cfg : ProcConfig) (O : NetOracle)
    (csvRead : String → Option (List String)) (rows : List String) :
    ProcessBatch cfg O csvRead rows false = ([], [], []) := rfl

/-- C10: for every `CmdStat` returned by `ProcessBatch` — whatever its
category label — the worker step records its latency into both the
cumulative and instantaneous global-total histograms and adds its tx/rx
byte counts into the shared byte counters (as `uint64` additions), so
stats with unrecognized labels still contribute to the total-operation
count and the byte totals. -/
theorem c10_total_and_bytes_updated_for_every_label
    (l : RunnerState) (cs : CmdStat) :
    (work1 l cs).totalHistogram = recordValue (toInt64 cs.latency) l.totalHistogram ∧
    (work1 l cs).inst_totalHistogram = recordValue (toInt64 cs.latency) l.inst_totalHistogram ∧
    (work1 l cs).txTotalBytes = u64 (l.txTotalBytes + cs.tx) ∧
    (work1 l cs).rxTotalBytes = u64 (l.rxTotalBytes + cs.rx) := by
  simp only [work1]
  split_ifs <;> exact ⟨rfl, rfl, rfl, rfl⟩

/-- C3: in the flush step, no pipelined round-trip is issued while fewer
than `pipeline` commands are pending (buffers and stats untouched); once
at least `pipeline` commands are pending, all of them are dispatched in
one round-trip: one `CmdStat` is emitted per pending command, its latency
being the flush completion time minus that command's own enqueue time (in
microseconds), and both buffers are emptied; `sendFlatCmd` enqueues the
command and its enqueue time and delegates to this step. -/
theorem c3_flush_threshold_latency_and_reset (cfg : ProcConfig)
    (cmdType cmdQueryId : String) (endT rxBytesCount : Nat)
    (rcv : Option RxVal) (txBytesCount : Nat)
    (cmds : List Cmd) (times : List Nat) :
    (cmds.length < cfg.pipeline →
      sendIfRequired cfg cmdType cmdQueryId none endT rxBytesCount rcv
          txBytesCount cmds times = .ok [] [] cmds times) ∧
    (cfg.pipeline ≤ cmds.length →
      sendIfRequired cfg cmdType cmdQueryId none endT rxBytesCount rcv
          txBytesCount cmds times =
        .ok []
          (flushStats cmdType cmdQueryId txBytesCount (getRxLen rcv) endT
            rxBytesCount times) [] []) ∧
    ((flushStats cmdType cmdQueryId txBytesCount (getRxLen rcv) endT
        rxBytesCount times).map CmdStat.latency = times.map (tookOf endT)) ∧
    (∀ t, t ≤ endT → endT - t < 2 ^ 64 → tookOf endT t = endT - t) ∧
    (∀ (flushErr : Option String) (c : String) (docfields : List String)
        (insertCount start : Nat),
      sendFlatCmd cfg flushErr endT cmdType cmdQueryId c docfields
          txBytesCount insertCount start cmds times =
        sendIfRequired cfg cmdType cmdQueryId flushErr endT 0 none
          txBytesCount (cmds ++ [⟨c, docfields⟩]) (times ++ [start])) := by
  refine ⟨fun h => ?_, fun h => ?_, flushStats_map_latency _ _ _ _ _ _ _,
    fun t ht hlt => ?_, fun _ _ _ _ _ => rfl⟩
  · simp [sendIfRequired, Nat.not_le.mpr h]
  · simp [sendIfRequired, h]
  · simp only [tookOf]
    have hpow : (2 : Int) ^ 64 = 18446744073709551616 := by norm_num
    have hlt2 : endT - t < 18446744073709551616 := by
      calc endT - t < 2 ^ 64 := hlt
        _ = 18446744073709551616 := by norm_num
    rw [hpow]
    omega

/-- C3 witness: with threshold 2, a buffer of one command is left alone,
a buffer of two commands is flushed with per-command latencies. -/
theorem c3_flush_threshold_witness :
    sendIfRequired ⟨2, true, 0⟩ "WRITE" "q1" none 100 0 none 7
        [⟨"c1", []⟩] [10] = .ok [] [] [⟨"c1", []⟩] [10] ∧
    sendIfRequired ⟨2, true, 0⟩ "WRITE" "q1" none 100 0 none 7
        [⟨"c1", []⟩, ⟨"c2", []⟩] [10, 20] =
      .ok [] (flushStats "WRITE" "q1" 7 0 100 0 [10, 20]) [] [] ∧
    tookOf 100 10 = 90 :=
  ⟨(c3_flush_threshold_latency_and_reset ⟨2, true, 0⟩ "WRITE" "q1" 100 0
      none 7 [⟨"c1", []⟩] [10]).1 (by decide),
   (c3_flush_threshold_latency_and_reset ⟨2, true, 0⟩ "WRITE" "q1" 100 0
      none 7 [⟨"c1", []⟩, ⟨"c2", []⟩] [10, 20]).2.1 (by decide),
   (c3_flush_threshold_latency_and_reset ⟨2, true, 0⟩ "WRITE" "q1" 100 0
      none 7 [] []).2.2.2.1 10 (by norm_num) (by norm_num)⟩

/-- C4: when a flush round-trip returns an error, `continueOnErr` makes
the step log the error (exactly when the debug option is enabled) and
continue — stats are still emitted and the buffers reset for the
subsequent batches — while without `continueOnErr` the step terminates
fatally. -/
theorem c4_flush_error_policy (cfg : ProcConfig) (cmdType cmdQueryId e : String)
    (endT rxBytesCount : Nat) (rcv : Option RxVal) (txBytesCount : Nat)
    (cmds : List Cmd) (times : List Nat)
    (hfull : cfg.pipeline ≤ cmds.length) :
    (cfg.continueOnErr = true →
      sendIfRequired cfg cmdType cmdQueryId (some e) endT rxBytesCount rcv
          txBytesCount cmds times =
        .ok (if 0 < cfg.debug then [(cmds, e)] else [])
          (flushStats cmdType cmdQueryId txBytesCount (getRxLen rcv) endT
            rxBytesCount times) [] []) ∧
    (cfg.continueOnErr = false →
      sendIfRequired cfg cmdType cmdQueryId (some e) endT rxBytesCount rcv
          txBytesCount cmds times = .fatalled e) := by
  constructor <;> intro hc <;> simp [sendIfRequired, hfull, hc]

/-- C4 witness: a failing single-command flush continues (and logs) under
`continueOnErr` with debug on, and dies fatally without it. -/
theorem c4_flush_error_policy_witness :
    sendIfRequired ⟨1, true, 1⟩ "WRITE" "q1" (some "boom") 100 0 none 7
        [⟨"c1", []⟩] [10] =
      .ok [([⟨"c1", []⟩], "boom")] (flushStats "WRITE" "q1" 7 0 100 0 [10])
        [] [] ∧
    sendIfRequired ⟨1, false, 0⟩ "WRITE" "q1" (some "boom") 100 0 none 7
        [⟨"c1", []⟩] [10] = .fatalled "boom" := by
  constructor
  · have h := (c4_flush_error_policy ⟨1, true, 1⟩ "WRITE" "q1" "boom" 100 0
      none 7 [⟨"c1", []⟩] [10] (by decide)).1 rfl
    simpa using h
  · exact (c4_flush_error_policy ⟨1, false, 0⟩ "WRITE" "q1" "boom" 100 0
      none 7 [⟨"c1", []⟩] [10] (by decide)).2 rfl

/-- C6: the worker demultiplexing step routes every `CmdStat` whose label
is one of the six recognized category labels into exactly the matching
cumulative/instantaneous histogram pair — all other category pairs
untouched — and a `CmdStat` with any other label updates no per-category
histogram at all and raises no error. -/
theorem c6_label_demux_routing (l : RunnerState) (cs : CmdStat) :
    (∀ i : Nat, routeIdx cs.label = some i →
      catPairs (work1 l cs) =
        (catPairs l).take i ++
          [recordPair (toInt64 cs.latency) ((catPairs l).getD i ([], []))] ++
          (catPairs l).drop (i + 1)) ∧
    (routeIdx cs.label = none → catPairs (work1 l cs) = catPairs l) := by
  by_cases h0 : cs.label = "SETUP_WRITE"
  · refine ⟨fun i hi => ?_, fun hn => ?_⟩
    · rw [h0] at hi
      have hi0 : i = 0 := by simpa [routeIdx] using hi.symm
      subst hi0
      simp [work1, h0, catPairs, recordPair, List.getD]
    · rw [h0] at hn; simp [routeIdx] at hn
  by_cases h1 : cs.label = "WRITE"
  · refine ⟨fun i hi => ?_, fun hn => ?_⟩
    · rw [h1] at hi
      have hi1 : i = 1 := by simpa [routeIdx] using hi.symm
      subst hi1
      simp [work1, h0, h1, catPairs, recordPair, List.getD]
    · rw [h1] at hn; simp [routeIdx] at hn
  by_cases h2 : cs.label = "UPDATE"
  · refine ⟨fun i hi => ?_, fun hn => ?_⟩
    · rw [h2] at hi
      have hi2 : i = 2 := by simpa [routeIdx] using hi.symm
      subst hi2
      simp [work1, h0, h1, h2, catPairs, recordPair, List.getD]
    · rw [h2] at hn; simp [routeIdx] at hn
  by_cases h3 : cs.label = "READ"
  · refine ⟨fun i hi => ?_, fun hn => ?_⟩
    · rw [h3] at hi
      have hi3 : i = 3 := by simpa [routeIdx] using hi.symm
      subst hi3
      simp [work1, h0, h1, h2, h3, catPairs, recordPair, List.getD]
    · rw [h3] at hn; simp [routeIdx] at hn
  by_cases h4 : cs.label = "CURSOR_READ"
  · refine ⟨fun i hi => ?_, fun hn => ?_⟩
    · rw [h4] at hi
      have hi4 : i = 4 := by simpa [routeIdx] using hi.symm
      subst hi4
      simp [work1, h0, h1, h2, h3, h4, catPairs, recordPair, List.getD]
    · rw [h4] at hn; simp [routeIdx] at hn
  by_cases h5 : cs.label = "DELETE"
  · refine ⟨fun i hi => ?_, fun hn => ?_⟩
    · rw [h5] at hi
      have hi5 : i = 5 := by simpa [routeIdx] using hi.symm
      subst hi5
      simp [work1, h0, h1, h2, h3, h4, h5, catPairs, recordPair, List.getD]
    · rw [h5] at hn; simp [routeIdx] at hn
  · refine ⟨fun i hi => ?_, fun _ => ?_⟩
    · simp [routeIdx, h0, h1, h2, h3, h4, h5] at hi
    · simp [work1, h0, h1, h2, h3, h4, h5, catPairs]

/-- C6 witness: a recognized label ("WRITE") updates exactly the write
pair, an unrecognized label ("FOO") leaves every category pair unchanged. -/
theorem c6_label_demux_witness :
    catPairs (work1 initialRunner ⟨"WRITE", "q1", 5, false, false, 1, 2⟩) =
      (catPairs initialRunner).take 1 ++
        [recordPair (toInt64 5) ((catPairs initialRunner).getD 1 ([], []))] ++
        (catPairs initialRunner).drop 2 ∧
    catPairs (work1 initialRunner ⟨"FOO", "q1", 5, false, false, 1, 2⟩) =
      catPairs initialRunner :=
  ⟨(c6_label_demux_routing initialRunner
      ⟨"WRITE", "q1", 5, false, false, 1, 2⟩).1 1 (by decide),
   (c6_label_demux_routing initialRunner
      ⟨"FOO", "q1", 5, false, false, 1, 2⟩).2 (by decide)⟩

/-- C8: every per-category time series surfaced by `GetTimeSeriesMap` is
sorted in non-decreasing timestamp order, for every sequence of
`DataPoint`s accumulated during the run. -/
theorem c8_time_series_sorted (b : RunnerState) :
    ∀ kv ∈ GetTimeSeriesMap b, List.Sorted ByTimestamp kv.2 := by
  intro kv hkv
  simp only [GetTimeSeriesMap, List.mem_cons, List.not_mem_nil, or_false] at hkv
  rcases hkv with h | h | h | h | h | h <;>
    (subst h; exact List.sorted_insertionSort ByTimestamp _)

/-- C8 witness: a write series appended with out-of-order timestamps is
surfaced sorted. -/
theorem c8_time_series_sorted_witness :
    List.Sorted ByTimestamp
      (List.insertionSort ByTimestamp
        [(⟨3, []⟩ : DataPoint), ⟨1, []⟩, ⟨2, []⟩]) :=
  c8_time_series_sorted
    { initialRunner with writeTs := [⟨3, []⟩, ⟨1, []⟩, ⟨2, []⟩] }
    ("writeTs", List.insertionSort ByTimestamp [⟨3, []⟩, ⟨1, []⟩, ⟨2, []⟩])
    (by simp [GetTimeSeriesMap])

/-- C9: every `DuplexChannel` produced by `createChannels` starts with no
batch in flight, and in every state reachable by interleaved Scanner
sends and worker acknowledgments the number of
enqueued-but-unacknowledged batches never exceeds the channel's
configured capacity; moreover the only inflight-increasing event (a
completed send) requires the channel to be below capacity — on a full
channel the Scanner blocks. -/
theorem c9_backpressure_bound (workers workQueues : Nat) (chans : List DChan)
    (hch : createChannels workers workQueues = some chans)
    (c0 : DChan) (h0 : c0 ∈ chans) :
    c0.inflight = 0 ∧
    (∀ c, DReach c0 c → c.inflight ≤ c.capacity) ∧
    (∀ b c : DChan, DStep b c → b.inflight < c.inflight →
      b.inflight < b.capacity) := by
  have hzero : c0.inflight = 0 := by
    unfold createChannels at hch
    split_ifs at hch <;> cases hch <;>
      exact (List.eq_of_mem_replicate h0).symm ▸ rfl
  refine ⟨hzero, dreach_bound c0 (by omega), fun b c hs hlt => ?_⟩
  cases hs with
  | send hb => exact hb
  | ack hb => simp at hlt; omega

/-- C9 witness: with 4 workers on 2 queues, a channel of capacity 2 with
one un-acknowledged send stays within its bound. -/
theorem c9_backpressure_witness :
    (⟨2, 1⟩ : DChan).inflight ≤ (⟨2, 1⟩ : DChan).capacity :=
  (c9_backpressure_bound 4 2 (List.replicate 2 (newDuplexChannel 2))
      (by decide) ⟨2, 0⟩ (by decide)).2.1 ⟨2, 1⟩
    (DReach.tail DReach.refl (DStep.send ⟨2, 0⟩ (by decide)))

end Ftsb
